import Mathlib

/-!
Verification of the MobilityDB-visualization scripts: a shallow embedding of
`create_temporal_layer.py` (the Layer Initializer) and
`import_rows_to_memory.py` (the Trip Row Importer), with theorems settling
the behavioural claims about them.
-/

/-- Qt variant types, as referenced by the script (`QVariant.DateTime`). -/
inductive QVariantType
| DateTime
| StringType
| IntType
deriving DecidableEq

/-- A layer attribute field, as built by `QgsField("time", QVariant.DateTime)`. -/
structure QgsField where
  name : String
  typ : QVariantType
deriving DecidableEq

/-- The temporal configuration object returned by `vlayer.temporalProperties()`. -/
structure TemporalProperties where
  isActive : Bool
  mode : Nat
  startField : String
deriving DecidableEq

/-- A vector layer as the script uses it: geometry string, display name and
provider key from the `QgsVectorLayer` constructor, the data provider's
attribute list (`pr.addAttributes`), the layer's own committed field list
(synced by `vlayer.updateFields()`), the temporal configuration, and the
unique layer id the host assigns at construction. -/
structure QgsVectorLayer where
  id : Nat
  geometry : String
  name : String
  providerKey : String
  providerFields : List QgsField
  fields : List QgsField
  temporal : TemporalProperties
deriving DecidableEq

/-- `QgsVectorLayer("Point", "points_3", "memory")`: a fresh layer with no
fields and the host-default (inactive) temporal configuration. -/
def mkVectorLayer (layerId : Nat) (geom nm provider : String) : QgsVectorLayer :=
  { id := layerId, geometry := geom, name := nm, providerKey := provider,
    providerFields := [], fields := [],
    temporal := { isActive := false, mode := 0, startField := "" } }

/-- `pr.addAttributes(fs)`: append fields to the data provider's list. -/
def addAttributes (fs : List QgsField) (l : QgsVectorLayer) : QgsVectorLayer :=
  { l with providerFields := l.providerFields ++ fs }

/-- `vlayer.updateFields()`: commit the provider's field list to the layer. -/
def updateFields (l : QgsVectorLayer) : QgsVectorLayer :=
  { l with fields := l.providerFields }

/-- `tp.setIsActive(b)`. -/
def setIsActive (b : Bool) (l : QgsVectorLayer) : QgsVectorLayer :=
  { l with temporal := { l.temporal with isActive := b } }

/-- `tp.setMode(m)`. -/
def setMode (m : Nat) (l : QgsVectorLayer) : QgsVectorLayer :=
  { l with temporal := { l.temporal with mode := m } }

/-- `tp.setStartField(f)`. -/
def setStartField (f : String) (l : QgsVectorLayer) : QgsVectorLayer :=
  { l with temporal := { l.temporal with startField := f } }

/-- The host project: its registered layers and the next fresh layer id. -/
structure QgsProject where
  layers : List QgsVectorLayer
  nextId : Nat
deriving DecidableEq

/-- `QgsProject.instance().addMapLayer(vlayer)`: register the layer. -/
def addMapLayer (p : QgsProject) (l : QgsVectorLayer) : QgsProject :=
  { p with layers := p.layers ++ [l] }

/-- The statements of `create_temporal_layer.py`, one constructor per call. -/
inductive LStep
| createLayer (geom nm provider : String)
| addAttrs (fs : List QgsField)
| updateFlds
| setActive (b : Bool)
| setMd (m : Nat)
| setStartFld (f : String)
| addToProject
deriving DecidableEq

/-- Interpreter state while the Layer Initializer runs: the host project and
the script's `vlayer` variable (absent before the constructor call). -/
structure LState where
  project : QgsProject
  vlayer : Option QgsVectorLayer

/-- One statement of the Layer Initializer, acting on the interpreter state. -/
def execStep (s : LState) : LStep → LState
| .createLayer g n pr =>
    { project := { s.project with nextId := s.project.nextId + 1 },
      vlayer := some (mkVectorLayer s.project.nextId g n pr) }
| .addAttrs fs => { s with vlayer := s.vlayer.map (addAttributes fs) }
| .updateFlds => { s with vlayer := s.vlayer.map updateFields }
| .setActive b => { s with vlayer := s.vlayer.map (setIsActive b) }
| .setMd m => { s with vlayer := s.vlayer.map (setMode m) }
| .setStartFld f => { s with vlayer := s.vlayer.map (setStartField f) }
| .addToProject =>
    match s.vlayer with
    | some l => { s with project := addMapLayer s.project l }
    | none => s

/-- `create_temporal_layer.py` as its sequence of statements. -/
def create_temporal_layer : List LStep :=
  [ .createLayer "Point" "points_3" "memory",
    .addAttrs [⟨"time", QVariantType.DateTime⟩],
    .updateFlds,
    .setActive true,
    .setMd 1,
    .setStartFld "time",
    .updateFlds,
    .addToProject ]

/-- Run the Layer Initializer once against a host project. -/
def runLayerInitializer (p : QgsProject) : QgsProject :=
  (create_temporal_layer.foldl execStep { project := p, vlayer := none }).project

/-- Whether a statement is a temporal-configuration step
(`setIsActive`, `setMode` or `setStartField`). -/
def isTemporalStep : LStep → Bool
| .setActive _ => true
| .setMd _ => true
| .setStartFld _ => true
| _ => false

/-- Whether a statement is an `addAttributes` call. -/
def isAddAttrs : LStep → Bool
| .addAttrs _ => true
| _ => false

/-- Whether a statement is an `updateFields` call. -/
def isUpdateFlds : LStep → Bool
| .updateFlds => true
| _ => false

/-- The environment `import_rows_to_memory.py` runs in. Each step that can
raise is modelled by an `Option String`: `some e` means that call raises an
exception rendering as `e`, `none` means it succeeds. `trips_test` is the
`trip` column of the table (a null value is `none`), `decode` is the decoding
the registered MobilityDB adapters perform on a fetched value, and
`frameRange`/`currentFrame` model the host temporal controller. -/
structure TripWorld where
  importError : Option String
  hostError : Option String
  connectError : Option String
  autocommitError : Option String
  registerError : Option String
  cursorError : Option String
  rangeError : Option String
  executeError : Option String
  fetchError : Option String
  closeError : Option String
  trips_test : List (Option String)
  decode : String → String
  frameRange : Nat → String
  currentFrame : Nat

/-- The fixed query text of `import_rows_to_memory.py`. -/
def select_query : String := "SELECT trip FROM trips_test"

/-- Outcome of the script's `try` block: whether `connection` was assigned a
connection object, the query texts passed to `cursor.execute`, the value of
the script-level `rows` variable (`none` while unassigned), and the
exception, if any, that escaped the block. -/
structure TryOutcome where
  connOpened : Bool
  submitted : List String
  rows : Option (List (List (Option String)))
  err : Option String
deriving DecidableEq

/-- The `try` block of `import_rows_to_memory.py`: connect, set autocommit,
register the MobilityDB adapters, open a cursor, read the current frame's
date-time range, execute `select_query`, fetch all rows. Each row fetched is
a one-element tuple holding the decoded trip value, or `none` for SQL null. -/
def tryBlock (w : TripWorld) : TryOutcome :=
  match w.connectError with
  | some e => ⟨false, [], none, some e⟩
  | none =>
    match w.autocommitError with
    | some e => ⟨true, [], none, some e⟩
    | none =>
      match w.registerError with
      | some e => ⟨true, [], none, some e⟩
      | none =>
        match w.cursorError with
        | some e => ⟨true, [], none, some e⟩
        | none =>
          match w.rangeError with
          | some e => ⟨true, [], none, some e⟩
          | none =>
            match w.executeError with
            | some e => ⟨true, [select_query], none, some e⟩
            | none =>
              match w.fetchError with
              | some e => ⟨true, [select_query], none, some e⟩
              | none =>
                ⟨true, [select_query],
                  some (w.trips_test.map (fun c => [c.map w.decode])), none⟩

/-- Observable result of one run of `import_rows_to_memory.py`: the messages
printed, the script-level `rows` variable, whether a connection was opened,
how many times `connection.close()` was called, the query texts submitted to
the driver, and the exception (if any) that propagates unhandled to the host. -/
structure RunResult where
  printed : List String
  rows : Option (List (List (Option String)))
  connOpened : Bool
  closeCalls : Nat
  submitted : List String
  uncaught : Option String
deriving DecidableEq

/-- `import_rows_to_memory.py` end to end. The imports and the canvas /
temporal-controller / frame-number reads precede the `try` statement, so a
failure there propagates unhandled. Inside `try`/`except`, any exception is
caught and printed with the fixed prefix. The `finally` block calls
`connection.close()` exactly when `connection` is non-null; an exception from
`close` itself is not caught. -/
def import_rows_to_memory (w : TripWorld) : RunResult :=
  match w.importError with
  | some e => ⟨[], none, false, 0, [], some e⟩
  | none =>
    match w.hostError with
    | some e => ⟨[], none, false, 0, [], some e⟩
    | none =>
      let t := tryBlock w
      let printed := match t.err with
        | some e => ["Error while connecting to PostgreSQL " ++ e]
        | none => []
      if t.connOpened then
        ⟨printed, t.rows, true, 1, t.submitted, w.closeError⟩
      else
        ⟨printed, t.rows, false, 0, t.submitted, none⟩

/-- Claim C1: after a single run of the Layer Initializer, the host project's
layer registry contains exactly one new memory point layer labelled
"points_3", whose field list includes a field named "time" of datetime type,
and whose temporal configuration reports active = true, mode = 1 and
start-field = "time". -/
theorem layer_initializer_registers_one_layer (p : QgsProject) :
    ∃ l : QgsVectorLayer,
      (runLayerInitializer p).layers = p.layers ++ [l] ∧
      l.name = "points_3" ∧ l.geometry = "Point" ∧ l.providerKey = "memory" ∧
      QgsField.mk "time" QVariantType.DateTime ∈ l.fields ∧
      l.temporal.isActive = true ∧ l.temporal.mode = 1 ∧
      l.temporal.startField = "time" := by
  refine ⟨⟨p.nextId, "Point", "points_3", "memory",
    [⟨"time", QVariantType.DateTime⟩], [⟨"time", QVariantType.DateTime⟩],
    ⟨true, 1, "time"⟩⟩, rfl, rfl, rfl, rfl, ?_, rfl, rfl, rfl⟩
  simp

/-- Claim C5: in the Layer Initializer's call sequence, the first three
statements (which add the "time" field and commit it) contain no
temporal-configuration step, after executing them the layer's committed field
list already includes the "time" field, and the very next statement is the
temporal activation. -/
theorem time_field_committed_before_temporal_config (p : QgsProject) :
    ((create_temporal_layer.take 3).all (fun st => !isTemporalStep st)) = true ∧
    (∃ l, ((create_temporal_layer.take 3).foldl execStep
        { project := p, vlayer := none }).vlayer = some l ∧
      QgsField.mk "time" QVariantType.DateTime ∈ l.fields) ∧
    create_temporal_layer.get? 3 = some (.setActive true) := by
  refine ⟨by decide, ⟨⟨p.nextId, "Point", "points_3", "memory",
    [⟨"time", QVariantType.DateTime⟩], [⟨"time", QVariantType.DateTime⟩],
    ⟨false, 0, ""⟩⟩, rfl, by simp⟩, by decide⟩

/-- Claim C7: running the Layer Initializer twice registers two layers, both
present in the project's registry, and they are distinct objects (distinct
layer ids): no deduplication or identity collapse. -/
theorem layer_initializer_twice_two_layers (p : QgsProject) :
    ∃ l1 l2 : QgsVectorLayer,
      (runLayerInitializer (runLayerInitializer p)).layers =
        p.layers ++ [l1, l2] ∧
      l1.id ≠ l2.id ∧ l1 ≠ l2 := by
  refine ⟨⟨p.nextId, "Point", "points_3", "memory",
      [⟨"time", QVariantType.DateTime⟩], [⟨"time", QVariantType.DateTime⟩],
      ⟨true, 1, "time"⟩⟩,
    ⟨p.nextId + 1, "Point", "points_3", "memory",
      [⟨"time", QVariantType.DateTime⟩], [⟨"time", QVariantType.DateTime⟩],
      ⟨true, 1, "time"⟩⟩, ?_, ?_, ?_⟩
  · show (p.layers ++ [_]) ++ [_] = p.layers ++ _
    rw [List.append_assoc]
    rfl
  · exact fun h => Nat.ne_of_lt (Nat.lt_succ_self p.nextId) h
  · intro h
    exact Nat.ne_of_lt (Nat.lt_succ_self p.nextId) (congrArg QgsVectorLayer.id h)

/-- Claim C8: the Layer Initializer performs exactly one `addAttributes` call,
that call adds exactly one field, `updateFields` is called exactly twice (as
statements 3 and 7 of the script), and the final statement adds the layer to
the active project. -/
theorem layer_initializer_call_counts :
    (create_temporal_layer.countP isAddAttrs) = 1 ∧
    (create_temporal_layer.all (fun st =>
      match st with
      | .addAttrs fs => fs.length == 1
      | _ => true)) = true ∧
    (create_temporal_layer.countP isUpdateFlds) = 2 ∧
    create_temporal_layer.get? 2 = some .updateFlds ∧
    create_temporal_layer.get? 6 = some .updateFlds ∧
    create_temporal_layer.getLast? = some .addToProject := by
  decide

/-- Claim C2: for every fault raised inside the Trip Row Importer's
connect-register-query-fetch sequence (and a cleanup that does not itself
fault), exactly one error message — the fixed prefix plus the exception — is
printed, nothing propagates unhandled (the script terminates normally), and
the cleanup block runs, closing the connection exactly when it was opened. -/
theorem trip_importer_catch_all (w : TripWorld) (e : String)
    (h1 : w.importError = none) (h2 : w.hostError = none)
    (h3 : w.closeError = none) (h4 : (tryBlock w).err = some e) :
    (import_rows_to_memory w).printed =
      ["Error while connecting to PostgreSQL " ++ e] ∧
    (import_rows_to_memory w).uncaught = none ∧
    (import_rows_to_memory w).closeCalls =
      (if (import_rows_to_memory w).connOpened then 1 else 0) := by
  obtain ⟨ie, he, ce, ae, ge, cu, ra, ex, fe, cl, tb, de, fr, cf⟩ := w
  simp only at h1 h2 h3 h4
  subst h1 h2 h3
  cases ce <;> cases ae <;> cases ge <;> cases cu <;> cases ra <;>
    cases ex <;> cases fe <;>
    simp_all [import_rows_to_memory, tryBlock]

/-- Claim C3: in every execution of the Trip Row Importer in which the
database connection is successfully opened, the connection is closed exactly
once — on the success path and on every failure path. -/
theorem connection_closed_exactly_once (w : TripWorld)
    (h1 : w.importError = none) (h2 : w.hostError = none)
    (h3 : w.connectError = none) :
    (import_rows_to_memory w).connOpened = true ∧
    (import_rows_to_memory w).closeCalls = 1 := by
  obtain ⟨ie, he, ce, ae, ge, cu, ra, ex, fe, cl, tb, de, fr, cf⟩ := w
  simp only at h1 h2 h3
  subst h1 h2 h3
  cases ae <;> cases ge <;> cases cu <;> cases ra <;> cases ex <;> cases fe <;>
    simp [import_rows_to_memory, tryBlock]

/-- Claim C4: whatever the current frame's date-time range is, the query text
submitted to the driver is unchanged (the time range has no influence on the
query), and any submitted query is exactly `SELECT trip FROM trips_test`. -/
theorem query_text_fixed_and_range_independent (w : TripWorld)
    (f : Nat → String) (n : Nat) :
    (import_rows_to_memory
        { w with frameRange := f, currentFrame := n }).submitted =
      (import_rows_to_memory w).submitted ∧
    ((import_rows_to_memory w).submitted = [] ∨
      (import_rows_to_memory w).submitted = [select_query]) := by
  constructor
  · rfl
  · obtain ⟨ie, he, ce, ae, ge, cu, ra, ex, fe, cl, tb, de, fr, cf⟩ := w
    cases ie <;> cases he <;> cases ce <;> cases ae <;> cases ge <;>
      cases cu <;> cases ra <;> cases ex <;> cases fe <;>
      first
      | exact Or.inl rfl
      | exact Or.inr rfl

/-- Claim C6: if the query succeeds, the script-level `rows` variable holds a
sequence with one entry per row of `trips_test`, each a one-element tuple
whose first component is the decoded trip value, or an absence marker when
the column value is null. -/
theorem rows_hold_decoded_table (w : TripWorld)
    (h1 : w.importError = none) (h2 : w.hostError = none)
    (h3 : w.connectError = none) (h4 : w.autocommitError = none)
    (h5 : w.registerError = none) (h6 : w.cursorError = none)
    (h7 : w.rangeError = none) (h8 : w.executeError = none)
    (h9 : w.fetchError = none) :
    (import_rows_to_memory w).rows =
      some (w.trips_test.map (fun c => [c.map w.decode])) ∧
    ∀ r, (import_rows_to_memory w).rows = some r →
      r.length = w.trips_test.length := by
  obtain ⟨ie, he, ce, ae, ge, cu, ra, ex, fe, cl, tb, de, fr, cf⟩ := w
  simp only at h1 h2 h3 h4 h5 h6 h7 h8 h9
  subst h1 h2 h3 h4 h5 h6 h7 h8 h9
  refine ⟨rfl, ?_⟩
  intro r hr
  have h0 : some (tb.map (fun c => [Option.map de c])) = some r := hr
  injection h0 with h3
  subst h3
  simp

/-- Claim C9: if any step inside the try block raises, the script-level
`rows` variable is never assigned: on every error path the row set remains
unbound. -/
theorem rows_unassigned_on_failure (w : TripWorld) (e : String)
    (h1 : w.importError = none) (h2 : w.hostError = none)
    (h3 : (tryBlock w).err = some e) :
    (import_rows_to_memory w).rows = none := by
  obtain ⟨ie, he, ce, ae, ge, cu, ra, ex, fe, cl, tb, de, fr, cf⟩ := w
  simp only at h1 h2 h3
  subst h1 h2
  cases ce <;> cases ae <;> cases ge <;> cases cu <;> cases ra <;>
    cases ex <;> cases fe <;>
    simp_all [import_rows_to_memory, tryBlock]

/-- Claim C10: the catch-all handler covers only the try block. An exception
raised while importing the driver modules, while reading the canvas /
temporal controller / frame number, or by `connection.close()` in the cleanup
block is not caught: it propagates unhandled (and prints no error message). -/
theorem pre_try_and_close_exceptions_uncaught (w : TripWorld) (e : String) :
    (w.importError = some e →
      (import_rows_to_memory w).uncaught = some e ∧
      (import_rows_to_memory w).printed = [] ∧
      (import_rows_to_memory w).closeCalls = 0) ∧
    (w.importError = none → w.hostError = some e →
      (import_rows_to_memory w).uncaught = some e ∧
      (import_rows_to_memory w).printed = [] ∧
      (import_rows_to_memory w).closeCalls = 0) ∧
    (w.importError = none → w.hostError = none → w.connectError = none →
      w.closeError = some e →
      (import_rows_to_memory w).uncaught = some e) := by
  obtain ⟨ie, he, ce, ae, ge, cu, ra, ex, fe, cl, tb, de, fr, cf⟩ := w
  refine ⟨?_, ?_, ?_⟩
  · intro h
    simp only at h
    subst h
    exact ⟨rfl, rfl, rfl⟩
  · intro h1 h2
    simp only at h1 h2
    subst h1 h2
    exact ⟨rfl, rfl, rfl⟩
  · intro h1 h2 h3 h4
    simp only at h1 h2 h3 h4
    subst h1 h2 h3 h4
    cases ae <;> cases ge <;> cases cu <;> cases ra <;> cases ex <;> cases fe <;>
      rfl

/-- Witness for claim C2, at a world where the connect call raises. -/
theorem trip_importer_catch_all_witness :
    (import_rows_to_memory ⟨none, none, some "connection refused", none, none,
        none, none, none, none, none, [], fun s => s, fun _ => "", 0⟩).printed =
      ["Error while connecting to PostgreSQL " ++ "connection refused"] ∧
    (import_rows_to_memory ⟨none, none, some "connection refused", none, none,
        none, none, none, none, none, [], fun s => s, fun _ => "", 0⟩).uncaught =
      none ∧
    (import_rows_to_memory ⟨none, none, some "connection refused", none, none,
        none, none, none, none, none, [], fun s => s, fun _ => "", 0⟩).closeCalls =
      (if (import_rows_to_memory ⟨none, none, some "connection refused", none,
          none, none, none, none, none, none, [], fun s => s, fun _ => "",
          0⟩).connOpened then 1 else 0) :=
  trip_importer_catch_all
    ⟨none, none, some "connection refused", none, none, none, none, none, none,
      none, [], fun s => s, fun _ => "", 0⟩
    "connection refused" rfl rfl rfl rfl

/-- Witness for claim C3, at a world where the query raises after a
successful connect: the connection is still closed exactly once. -/
theorem connection_closed_exactly_once_witness :
    (import_rows_to_memory ⟨none, none, none, none, none, none, none,
        some "bad query", none, none, [], fun s => s, fun _ => "",
        0⟩).connOpened = true ∧
    (import_rows_to_memory ⟨none, none, none, none, none, none, none,
        some "bad query", none, none, [], fun s => s, fun _ => "",
        0⟩).closeCalls = 1 :=
  connection_closed_exactly_once
    ⟨none, none, none, none, none, none, none, some "bad query", none, none,
      [], fun s => s, fun _ => "", 0⟩
    rfl rfl rfl

/-- Witness for claim C6, at a world with a two-row table holding one trip
value and one SQL null. -/
theorem rows_hold_decoded_table_witness :
    (import_rows_to_memory ⟨none, none, none, none, none, none, none, none,
        none, none, [some "trip0", none], fun s => "D" ++ s, fun _ => "",
        0⟩).rows = some [[some ("D" ++ "trip0")], [none]] ∧
    ∀ r, (import_rows_to_memory ⟨none, none, none, none, none, none, none,
        none, none, none, [some "trip0", none], fun s => "D" ++ s,
        fun _ => "", 0⟩).rows = some r → r.length = 2 :=
  rows_hold_decoded_table
    ⟨none, none, none, none, none, none, none, none, none, none,
      [some "trip0", none], fun s => "D" ++ s, fun _ => "", 0⟩
    rfl rfl rfl rfl rfl rfl rfl rfl rfl

/-- Witness for claim C9, at a world where the fetch raises: `rows` stays
unassigned. -/
theorem rows_unassigned_on_failure_witness :
    (import_rows_to_memory ⟨none, none, none, none, none, none, none, none,
        some "fetch failed", none, [some "x"], fun s => s, fun _ => "",
        0⟩).rows = none :=
  rows_unassigned_on_failure
    ⟨none, none, none, none, none, none, none, none, some "fetch failed",
      none, [some "x"], fun s => s, fun _ => "", 0⟩
    "fetch failed" rfl rfl rfl

/-- Witness for claim C10, at three worlds: a failing driver import, a
failing temporal-controller read, and a failing `connection.close()`. -/
theorem pre_try_and_close_exceptions_uncaught_witness :
    ((import_rows_to_memory ⟨some "no module named psycopg2", none, none,
        none, none, none, none, none, none, none, [], fun s => s, fun _ => "",
        0⟩).uncaught = some "no module named psycopg2" ∧
      (import_rows_to_memory ⟨some "no module named psycopg2", none, none,
        none, none, none, none, none, none, none, [], fun s => s, fun _ => "",
        0⟩).printed = [] ∧
      (import_rows_to_memory ⟨some "no module named psycopg2", none, none,
        none, none, none, none, none, none, none, [], fun s => s, fun _ => "",
        0⟩).closeCalls = 0) ∧
    ((import_rows_to_memory ⟨none, some "iface is not defined", none, none,
        none, none, none, none, none, none, [], fun s => s, fun _ => "",
        0⟩).uncaught = some "iface is not defined" ∧
      (import_rows_to_memory ⟨none, some "iface is not defined", none, none,
        none, none, none, none, none, none, [], fun s => s, fun _ => "",
        0⟩).printed = [] ∧
      (import_rows_to_memory ⟨none, some "iface is not defined", none, none,
        none, none, none, none, none, none, [], fun s => s, fun _ => "",
        0⟩).closeCalls = 0) ∧
    (import_rows_to_memory ⟨none, none, none, none, none, none, none, none,
        none, some "close failed", [], fun s => s, fun _ => "",
        0⟩).uncaught = some "close failed" :=
  ⟨(pre_try_and_close_exceptions_uncaught
      ⟨some "no module named psycopg2", none, none, none, none, none, none,
        none, none, none, [], fun s => s, fun _ => "", 0⟩
      "no module named psycopg2").1 rfl,
    (pre_try_and_close_exceptions_uncaught
      ⟨none, some "iface is not defined", none, none, none, none, none, none,
        none, none, [], fun s => s, fun _ => "", 0⟩
      "iface is not defined").2.1 rfl rfl,
    (pre_try_and_close_exceptions_uncaught
      ⟨none, none, none, none, none, none, none, none, none,
        some "close failed", [], fun s => s, fun _ => "", 0⟩
      "close failed").2.2 rfl rfl rfl rfl⟩
